import Mathlib

/-!
Verification development for the xAOD C++ transformer worker
(`transformer.py`): a shallow embedding of its per-item workflow —
the log-metrics aggregation (`parse_output_logs`), the single-attempt
driver (`transform_single_file`), and the bounded-retry controller
(`callback`) — together with theorems about the spec's claims.
-/

namespace XaodTransformer

/-! ## Log metrics parser (`parse_output_logs`, source lines 83–120)

The Python code reads a log file line by line.  A line is relevant when it
contains the marker `---<`; for such a line the code takes everything after
the first comma, strips it, drops the last character, replaces `'` by `"`
and decodes the result as JSON (`json.loads`).  We model a line of the log
file abstractly: the marker test and the decode step (split at first comma,
strip/drop, quote normalisation, JSON decode) are performed by external
string/JSON machinery, so a line is embedded as either a marker-less line
or a marker line together with the result of that decode — `none` when the
split or the JSON decode raises (no comma on the line, undecodable record),
`some record` when it yields a JSON object. -/

/-- The JSON record embedded in one well-formed marker line.  Each field is
optional, mirroring `body.get(key, default)` in the source; JSON numbers are
modelled as naturals. -/
structure ChunkRecord where
  file_path : Option String
  total_events : Option Nat
  total_bytes : Option Nat
  total_time : Option Nat
  status : Option String
deriving DecidableEq

/-- One line of the captured log: either a line without the `---<` marker,
or a marker line whose embedded record decoded to `record` (`none` when the
comma split or the JSON decode raises). `raw` is the raw text of the line. -/
inductive LogLine where
  | plain (raw : String)
  | markerLine (raw : String) (record : Option ChunkRecord)
deriving DecidableEq

/-- Raw text of a log line. -/
def LogLine.raw : LogLine → String
  | .plain r => r
  | .markerLine r _ => r

/-- A line is well formed when it is not a marker line whose embedded record
fails to decode (such a line makes the Python loop raise). -/
def LogLine.wellFormed : LogLine → Bool
  | .markerLine _ none => false
  | _ => true

/-- Whether the line carries the `---<` marker. -/
def LogLine.hasMarker : LogLine → Bool
  | .plain _ => false
  | .markerLine _ _ => true

/-- The running totals accumulated by `parse_output_logs` (the Python
function logs them; the model returns them). -/
structure RunMetrics where
  total_events : Nat
  total_bytes : Nat
  total_time : Nat
  total_files : Nat
  successes : Nat
deriving DecidableEq

/-- The all-zero totals `parse_output_logs` starts from (source lines 89–93). -/
def RunMetrics.zero : RunMetrics := ⟨0, 0, 0, 0, 0⟩

/-- One iteration of the `for line in f.readlines()` loop (source lines
95–116): marker-less lines leave the totals unchanged; a marker line whose
record fails to decode raises (modelled as `none`); otherwise the record's
fields (with the source's defaults) are added to the running totals, and the
line counts as a success when its status is neither `failure` nor `unknown`
(a missing status defaults to `unknown`). -/
def parseStep (acc : RunMetrics) : LogLine → Option RunMetrics
  | .plain _ => some acc
  | .markerLine _ none => none
  | .markerLine _ (some body) =>
      some { total_events := acc.total_events + body.total_events.getD 0
             total_bytes := acc.total_bytes + body.total_bytes.getD 0
             total_time := acc.total_time + body.total_time.getD 0
             total_files := acc.total_files + 1
             successes :=
               if (body.status.getD "unknown") != "failure" &&
                   (body.status.getD "unknown") != "unknown" then
                 acc.successes + 1
               else
                 acc.successes }

/-- The loop of `parse_output_logs` over the remaining lines, threading the
running totals; `none` when an iteration raises. -/
def parseLines (acc : RunMetrics) : List LogLine → Option RunMetrics
  | [] => some acc
  | l :: ls =>
      match parseStep acc l with
      | none => none
      | some acc2 => parseLines acc2 ls

/-- `parse_output_logs` (source lines 83–120): fold the per-line step over
the whole log starting from zero totals.  `none` models the uncaught
exception raised on a malformed marker line. -/
def parse_output_logs (lines : List LogLine) : Option RunMetrics :=
  parseLines RunMetrics.zero lines

/-! Specification-side restatement of the aggregation, used to compare the
fold above with the spec's "aggregates summed over exactly the N well-formed
lines". -/

/-- The records of the well-formed marker lines, in order. -/
def markerRecords (lines : List LogLine) : List ChunkRecord :=
  lines.filterMap fun l =>
    match l with
    | .markerLine _ (some r) => some r
    | _ => none

/-- Whether a record counts as a success: status defaulted to `unknown`,
then compared against the two sentinel values (source lines 109–111). -/
def statusSuccess (r : ChunkRecord) : Bool :=
  (r.status.getD "unknown") != "failure" && (r.status.getD "unknown") != "unknown"

/-- Aggregates stated as sums over the list of well-formed records. -/
def specRunMetrics (lines : List LogLine) : RunMetrics :=
  { total_events := ((markerRecords lines).map fun r => r.total_events.getD 0).sum
    total_bytes := ((markerRecords lines).map fun r => r.total_bytes.getD 0).sum
    total_time := ((markerRecords lines).map fun r => r.total_time.getD 0).sum
    total_files := (markerRecords lines).length
    successes := ((markerRecords lines).filter statusSuccess).length }

/-- Componentwise sum of two totals (proof helper). -/
def mergeMetrics (a b : RunMetrics) : RunMetrics :=
  ⟨a.total_events + b.total_events, a.total_bytes + b.total_bytes,
   a.total_time + b.total_time, a.total_files + b.total_files,
   a.successes + b.successes⟩

/-! ## Transformation driver (`transform_single_file`, source lines 240–276)

The driver shells out to `runner.sh` capturing its combined output to
`log.txt`, parses the log, and classifies the attempt: non-zero exit code or
missing output file produce a `RuntimeError` whose message carries a reason
and the whole captured log text.  The external effects are embedded as
inputs: the subprocess exit code, whether a file exists at `output_path`
afterwards, and the captured log. -/

/-- Raw text of the whole captured log file (`f.read()` in the source;
`readlines` keeps line terminators, so the raw lines concatenate to the
file contents). -/
def logFileText (lines : List LogLine) : String :=
  String.join (lines.map LogLine.raw)

/-- An exception escaping `transform_single_file`: either the
`IndexError`/`ValueError` raised inside `parse_output_logs` on a malformed
marker line, or the `RuntimeError` raised when the attempt is classified as
failed (source line 256). -/
inductive TransformError where
  | parseFault
  | runtimeError (message : String)
deriving DecidableEq

/-- `transform_single_file` (source lines 240–259): run the external
transformer (exit code `exitCode`, captured log `log`, output-file existence
`outputExists`), parse the log, then classify.  `.error` models a raised
exception; `.ok ()` models returning normally (after which the conversion
pipeline runs, see `eventIteratorChunkSize`).  The `chunks` parameter is the
task's chunk size, consumed only by the pipeline stage. -/
def transform_single_file (file_path output_path : String) (chunks : Option Nat)
    (exitCode : Int) (outputExists : Bool) (log : List LogLine) :
    Except TransformError Unit :=
  match parse_output_logs log with
  | none => .error .parseFault
  | some _ =>
    let reason_bad : Option String :=
      if exitCode != 0 then
        some ("Error return from transformer: " ++ toString exitCode)
      else
        none
    let reason_bad2 : Option String :=
      match reason_bad with
      | none =>
          if !outputExists then
            some ("Output file " ++ output_path ++ " was not found")
          else
            none
      | some r => some r
    match reason_bad2 with
    | some reason =>
        .error (.runtimeError ("Failed to transform input file " ++ file_path ++ ": " ++
          reason ++ " -- errors: " ++ logFileText log))
    | none => .ok ()

/-! ## Conversion pipeline chunk size (source lines 50–52 and 261–275) -/

/-- How many bytes an average awkward-array cell takes up (source line 52);
the source comments it as a rule of thumb to calculate chunk size. -/
def avg_cell_size : Nat := 42

/-- The `chunk_size` argument that `transform_single_file` passes to the
`UprootEvents` iterator (source lines 270–271): the `chunks` value received
with the task, unchanged — no default is derived when it is absent, and
`avg_cell_size` is not consulted. -/
def eventIteratorChunkSize (chunks : Option Nat) : Option Nat :=
  chunks

/-! ## Retry controller (`callback`, source lines 171–237)

`callback` decodes the task record, posts a `start` status event, then runs
a `while not file_done` loop: each iteration invokes the
attempt body (`transform_single_file`, optional object-store upload, status
and completion reports); an exception increments `file_retries`, dead-letters
when it reaches `MAX_RETRIES`, otherwise posts a `retry` event and loops.
After the loop the message is acknowledged.

Observable actions (calls on the channel, the object store and the ServiceX
adapter, plus the `transform_single_file` invocations themselves) are
collected into a trace of `Event`s.  The attempt outcomes are an input
`outcome : Nat → AttemptResult`: `outcome i` is what the `i`-th execution of
the try-block body does — return normally after measuring an elapsed-time
string, or raise with a message.  The loop is embedded with explicit fuel;
running out of fuel (`none`) models not having exited after that many
iterations, and `MAX_RETRIES` fuel is proved sufficient. -/

/-- The decoded task record (source lines 172–177). -/
structure TransformRequest where
  request_id : String
  file_path : String
  file_id : String
  service_endpoint : String
  chunk_size : Option Nat
deriving DecidableEq

/-- The dead-letter message body: the original task record plus the `error`
field set at source line 214. -/
structure DeadLetterBody where
  request : TransformRequest
  error : String
deriving DecidableEq

/-- An observable action of `callback`.  `putFileComplete`'s `total_time` is
kept as a string since the source passes a wall-clock value on success and
the number `0` on failure. -/
inductive Event where
  | invokeTransform (file_path output_path : String) (chunks : Option Nat)
  | postStatus (file_id status_code info : String)
  | uploadFile (request_id root_file output_path : String)
  | removeFile (path : String)
  | putFileComplete (file_path file_id status : String)
      (num_messages : Nat) (total_time : String) (total_events total_bytes : Nat)
  | basicPublish (exchange routing_key : String) (body : DeadLetterBody)
  | basicAck
deriving DecidableEq

/-- Outcome of one execution of the try-block body: return normally (with
the elapsed-time string computed from the clock) or raise `err`. -/
inductive AttemptResult where
  | success (elapsed : String)
  | failure (err : String)
deriving DecidableEq

/-- Whether the attempt raised. -/
def AttemptResult.isFailure : AttemptResult → Bool
  | .success _ => false
  | .failure _ => true

/-- Maximum number of attempts (source line 53). -/
def MAX_RETRIES : Nat := 3

/-- Python's `str.replace('/', ':')` with a one-character pattern, modelled
character-wise (source line 190). -/
def sanitizePath (s : String) : String :=
  String.mk (s.data.map fun c => if c = '/' then ':' else c)

/-- Python's `str[0:1024]` slice, modelled on the character list
(source line 235). -/
def strTake (s : String) (n : Nat) : String :=
  String.mk (s.data.take n)

/-- `root_file` at source line 190. -/
def rootFileOf (req : TransformRequest) : String :=
  sanitizePath req.file_path

/-- `output_path` at source line 191. -/
def outputPathOf (req : TransformRequest) : String :=
  "/home/atlas/" ++ rootFileOf req

/-- The events of one successful loop iteration (source lines 189–209):
invoke the transform, upload and delete the artifact when an object store is
configured, post `complete`, report success downstream. -/
def successTrace (req : TransformRequest) (objectStore : Bool) (elapsed : String) :
    List Event :=
  [Event.invokeTransform req.file_path (outputPathOf req) req.chunk_size] ++
  (if objectStore then
    [Event.uploadFile req.request_id (rootFileOf req) (outputPathOf req),
     Event.removeFile (outputPathOf req)]
  else []) ++
  [Event.postStatus req.file_id "complete" ("Total time " ++ elapsed),
   Event.putFileComplete req.file_path req.file_id "success" 0 elapsed 0 0]

/-- The events of the final failed iteration (source lines 211–230): invoke
the transform (which raises `err`), publish the dead-letter message on the
`transformation_failures` exchange with routing key `request_id + "_errors"`
and body the original record plus the error, report failure downstream, post
`failure`. -/
def deadLetterTrace (req : TransformRequest) (err : String) : List Event :=
  [Event.invokeTransform req.file_path (outputPathOf req) req.chunk_size,
   Event.basicPublish "transformation_failures" (req.request_id ++ "_errors") ⟨req, err⟩,
   Event.putFileComplete req.file_path req.file_id "failure" 0 "0" 0 0,
   Event.postStatus req.file_id "failure" ("error: " ++ err)]

/-- The events of a non-final failed iteration (source lines 231–235):
invoke the transform (which raises `err`), post `retry` with the attempt
number `n` and the error truncated to 1024 characters. -/
def retryTrace (req : TransformRequest) (n : Nat) (err : String) : List Event :=
  [Event.invokeTransform req.file_path (outputPathOf req) req.chunk_size,
   Event.postStatus req.file_id "retry"
     ("Try: " ++ toString n ++ " error: " ++ strTake err 1024)]

/-- The `while not file_done` loop of `callback` (source lines 187–236),
entered with `file_retries` failed attempts so far, with `fuel` remaining
loop iterations allowed.  Returns the events of the remaining iterations, or
`none` when the fuel is exhausted before `file_done` becomes true.

Exception branch (source lines 211–235): increment the count; at
`MAX_RETRIES` publish the dead-letter message, report failure downstream and
post `failure`; otherwise post `retry` and loop. -/
def loopFuel (req : TransformRequest) (objectStore : Bool)
    (outcome : Nat → AttemptResult) : Nat → Nat → Option (List Event)
  | _, 0 => none
  | file_retries, fuel + 1 =>
      match outcome file_retries with
      | .success elapsed => some (successTrace req objectStore elapsed)
      | .failure err =>
          if file_retries + 1 = MAX_RETRIES then
            some (deadLetterTrace req err)
          else
            (loopFuel req objectStore outcome (file_retries + 1) fuel).map
              fun rest => retryTrace req (file_retries + 1) err ++ rest

/-- `callback` (source lines 171–237): post the `start` status event, run
the retry loop from zero failed attempts (with `MAX_RETRIES` fuel, proved
sufficient below), then acknowledge the message. -/
def callback (req : TransformRequest) (objectStore : Bool)
    (outcome : Nat → AttemptResult) : Option (List Event) :=
  (loopFuel req objectStore outcome 0 MAX_RETRIES).map
    fun evs =>
      Event.postStatus req.file_id "start" "xAOD Transformer" :: evs ++ [Event.basicAck]

/-! Trace observations used by the theorems. -/

/-- Whether an event is an invocation of `transform_single_file`. -/
def Event.isInvoke : Event → Bool
  | .invokeTransform _ _ _ => true
  | _ => false

/-- Whether an event is a `basic_ack`. -/
def Event.isAck : Event → Bool
  | .basicAck => true
  | _ => false

/-- Whether an event is a `basic_publish` (dead-letter). -/
def Event.isPublish : Event → Bool
  | .basicPublish _ _ _ => true
  | _ => false

/-- Number of `transform_single_file` invocations in a trace. -/
def countInvoke (evs : List Event) : Nat :=
  evs.countP Event.isInvoke

/-- Number of acknowledgements in a trace. -/
def countAck (evs : List Event) : Nat :=
  evs.countP Event.isAck

/-- Number of dead-letter publications in a trace. -/
def countPublish (evs : List Event) : Nat :=
  evs.countP Event.isPublish

/-- The status code of a status event, `none` for other events. -/
def statusCode? : Event → Option String
  | .postStatus _ c _ => some c
  | _ => none

/-- The sequence of status codes posted along a trace. -/
def statusCodes (evs : List Event) : List String :=
  evs.filterMap statusCode?

/-- A sample task record, used by the concrete witnesses. -/
def sampleRequest : TransformRequest :=
  ⟨"req1", "a/b.root", "fid1", "http://endpoint", some 1000⟩

/-- The trace `callback` produces on `sampleRequest` when every attempt
raises `"boom"` (used by the concrete witnesses). -/
def sampleFailTrace : List Event :=
  [Event.postStatus "fid1" "start" "xAOD Transformer",
   Event.invokeTransform "a/b.root" "/home/atlas/a:b.root" (some 1000),
   Event.postStatus "fid1" "retry" "Try: 1 error: boom",
   Event.invokeTransform "a/b.root" "/home/atlas/a:b.root" (some 1000),
   Event.postStatus "fid1" "retry" "Try: 2 error: boom",
   Event.invokeTransform "a/b.root" "/home/atlas/a:b.root" (some 1000),
   Event.basicPublish "transformation_failures" "req1_errors" ⟨sampleRequest, "boom"⟩,
   Event.putFileComplete "a/b.root" "fid1" "failure" 0 "0" 0 0,
   Event.postStatus "fid1" "failure" "error: boom",
   Event.basicAck]

/-! ## Helper lemmas about the log metrics parser -/

lemma mergeMetrics_zero (b : RunMetrics) : mergeMetrics RunMetrics.zero b = b := by
  cases b
  simp [mergeMetrics, RunMetrics.zero]

lemma markerRecords_cons_plain (raw : String) (ls : List LogLine) :
    markerRecords (.plain raw :: ls) = markerRecords ls := by
  simp [markerRecords, List.filterMap_cons]

lemma markerRecords_cons_some (raw : String) (r : ChunkRecord) (ls : List LogLine) :
    markerRecords (.markerLine raw (some r) :: ls) = r :: markerRecords ls := by
  simp [markerRecords, List.filterMap_cons]

lemma specRunMetrics_nil : specRunMetrics [] = RunMetrics.zero := by
  simp [specRunMetrics, markerRecords, RunMetrics.zero]

lemma parseLines_wellFormed (lines : List LogLine) : ∀ acc : RunMetrics,
    (∀ l ∈ lines, l.wellFormed = true) →
    parseLines acc lines = some (mergeMetrics acc (specRunMetrics lines)) := by
  induction lines with
  | nil =>
      intro acc _
      cases acc
      simp [parseLines, specRunMetrics_nil, mergeMetrics, RunMetrics.zero]
  | cons l ls ih =>
      intro acc h
      have hls : ∀ x ∈ ls, x.wellFormed = true :=
        fun x hx => h x (List.mem_cons_of_mem _ hx)
      cases l with
      | plain raw =>
          rw [show parseLines acc (.plain raw :: ls) = parseLines acc ls from rfl,
            ih acc hls]
          simp [specRunMetrics, markerRecords_cons_plain]
      | markerLine raw rec =>
          cases rec with
          | none =>
              have := h _ (List.mem_cons_self _ _)
              simp [LogLine.wellFormed] at this
          | some r =>
              have hstep : parseLines acc (.markerLine raw (some r) :: ls) =
                  parseLines
                    { total_events := acc.total_events + r.total_events.getD 0
                      total_bytes := acc.total_bytes + r.total_bytes.getD 0
                      total_time := acc.total_time + r.total_time.getD 0
                      total_files := acc.total_files + 1
                      successes :=
                        if statusSuccess r then acc.successes + 1 else acc.successes } ls :=
                rfl
              rw [hstep, ih _ hls]
              congr 1
              simp only [mergeMetrics, specRunMetrics, markerRecords_cons_some,
                List.map_cons, List.sum_cons, List.length_cons, List.filter_cons]
              by_cases hc : statusSuccess r
              · simp [hc]
                omega
              · simp [hc]
                omega

lemma markerRecords_eq_nil (lines : List LogLine)
    (h : ∀ l ∈ lines, l.hasMarker = false) : markerRecords lines = [] := by
  induction lines with
  | nil => simp [markerRecords]
  | cons l ls ih =>
      cases l with
      | plain raw =>
          rw [markerRecords_cons_plain]
          exact ih fun x hx => h x (List.mem_cons_of_mem _ hx)
      | markerLine raw rec =>
          have := h _ (List.mem_cons_self _ _)
          simp [LogLine.hasMarker] at this

/-! ## Claim theorems about the log metrics parser -/

/-- Claim C7, counterexample: the claim says that a log whose lines are
well-formed marker lines or "malformed" lines is parsed without failing,
the malformed lines being ignored.  On a log consisting of one malformed
marker line (a line containing `---<` whose embedded record cannot be
decoded, e.g. because it has no comma or carries broken JSON),
`parse_output_logs` raises instead of ignoring the line. -/
theorem parse_output_logs_raises_on_malformed_marker :
    parse_output_logs [LogLine.markerLine "---< oops" none] = none := rfl

/-- Claim C7 (amended): for every log file containing exactly N well-formed
marker lines and M lines that lack the marker, `parse_output_logs` completes
without failing and produces aggregates (total events, bytes, time, file and
success counts) summed over exactly the N well-formed lines while ignoring
the M others; it produces all-zero aggregates when there are zero marker
lines.  (A marker line whose record fails to decode instead makes the parse
raise — see the counterexample.) -/
theorem parse_output_logs_aggregates (lines : List LogLine)
    (h : ∀ l ∈ lines, l.wellFormed = true) :
    parse_output_logs lines = some (specRunMetrics lines) ∧
    ((∀ l ∈ lines, l.hasMarker = false) →
      parse_output_logs lines = some RunMetrics.zero) := by
  have hmain : parse_output_logs lines = some (specRunMetrics lines) := by
    rw [parse_output_logs, parseLines_wellFormed lines RunMetrics.zero h,
      mergeMetrics_zero]
  refine ⟨hmain, fun hnm => ?_⟩
  rw [hmain]
  simp [specRunMetrics, markerRecords_eq_nil lines hnm, RunMetrics.zero]

/-- Claim C7 witness: a concrete log with two well-formed marker lines and
one marker-less line. -/
theorem parse_output_logs_aggregates_witness :
    (∀ l ∈ [LogLine.plain "hello\n",
        LogLine.markerLine "m1" (some ⟨some "f1", some 10, some 100, some 2, some "success"⟩),
        LogLine.markerLine "m2" (some ⟨none, none, none, none, none⟩)],
      l.wellFormed = true) ∧
    (parse_output_logs [LogLine.plain "hello\n",
        LogLine.markerLine "m1" (some ⟨some "f1", some 10, some 100, some 2, some "success"⟩),
        LogLine.markerLine "m2" (some ⟨none, none, none, none, none⟩)] =
      some (specRunMetrics [LogLine.plain "hello\n",
        LogLine.markerLine "m1" (some ⟨some "f1", some 10, some 100, some 2, some "success"⟩),
        LogLine.markerLine "m2" (some ⟨none, none, none, none, none⟩)]) ∧
      ((∀ l ∈ [LogLine.plain "hello\n",
          LogLine.markerLine "m1" (some ⟨some "f1", some 10, some 100, some 2, some "success"⟩),
          LogLine.markerLine "m2" (some ⟨none, none, none, none, none⟩)],
        l.hasMarker = false) →
        parse_output_logs [LogLine.plain "hello\n",
          LogLine.markerLine "m1" (some ⟨some "f1", some 10, some 100, some 2, some "success"⟩),
          LogLine.markerLine "m2" (some ⟨none, none, none, none, none⟩)] =
          some RunMetrics.zero)) :=
  ⟨by decide, parse_output_logs_aggregates _ (by decide)⟩

/-- Claim C8: a well-formed marker line's record is counted toward the
success total if and only if its status field is present and is neither
`failure` nor `unknown`; a record with no status field is not counted. -/
theorem parseStep_success_counting (acc : RunMetrics) (raw : String) (r : ChunkRecord) :
    ∃ acc2, parseStep acc (.markerLine raw (some r)) = some acc2 ∧
      acc2.successes = (if statusSuccess r then acc.successes + 1 else acc.successes) ∧
      (statusSuccess r = true ↔
        ∃ s, r.status = some s ∧ s ≠ "failure" ∧ s ≠ "unknown") ∧
      (r.status = none → acc2.successes = acc.successes) := by
  refine ⟨_, rfl, rfl, ?_, ?_⟩
  · cases hs : r.status with
    | none => simp [statusSuccess, hs]
    | some s =>
        simp [statusSuccess, hs]
  · intro hs
    simp [parseStep, statusSuccess, hs]

/-! ## Claim theorems about the conversion pipeline chunk size -/

/-- Claim C9, counterexample: the claim says that when no chunk size is
supplied with the task, the effective chunk size handed to the row-group
iterator is derived from the `avg_cell_size` heuristic.  In the code the
`chunks` value is passed to `UprootEvents` unchanged: when none is supplied,
no chunk size at all is derived (and `avg_cell_size` is never read). -/
theorem eventIteratorChunkSize_none : eventIteratorChunkSize none = none := rfl

/-- Claim C9 (amended): the chunk size handed to the row-group iterator is
always exactly the chunk size supplied with the task — in particular, when
none is supplied the iterator receives none; the `avg_cell_size` heuristic
constant (42) is defined but never consulted. -/
theorem eventIteratorChunkSize_passthrough (chunks : Option Nat) :
    eventIteratorChunkSize chunks = chunks ∧ avg_cell_size = 42 :=
  ⟨rfl, rfl⟩

/-! ## Helper lemmas about the transformation driver -/

lemma transform_single_file_of_parse_some (fp op : String) (ch : Option Nat)
    (ec : Int) (ex : Bool) (log : List LogLine) (m : RunMetrics)
    (hp : parse_output_logs log = some m) :
    transform_single_file fp op ch ec ex log =
      (if ec = 0 then
        (if ex then .ok () else
          .error (.runtimeError ("Failed to transform input file " ++ fp ++ ": " ++
            ("Output file " ++ op ++ " was not found") ++ " -- errors: " ++ logFileText log)))
      else
        .error (.runtimeError ("Failed to transform input file " ++ fp ++ ": " ++
          ("Error return from transformer: " ++ toString ec) ++ " -- errors: " ++
          logFileText log))) := by
  by_cases hec : ec = 0 <;> cases ex <;>
    simp [transform_single_file, hp, hec]

/-! ## Claim theorems about the transformation driver -/

/-- Claim C3, counterexample: the claim says `transform_single_file` does
not raise for a non-zero exit code.  On an input where the transformer
exits with code 1 (output present, empty log), the function raises a
`RuntimeError` — the failure is signalled by an exception, not by a
returned outcome. -/
theorem transform_single_file_raises_on_nonzero_exit :
    transform_single_file "f" "o" none 1 true [] =
      .error (.runtimeError
        "Failed to transform input file f: Error return from transformer: 1 -- errors: ") := by
  rfl

/-- Claim C3 (amended): for every input on which the external transformer
returns a non-zero exit code or leaves no file at `output_path`,
`transform_single_file` never returns success: it signals the failed attempt
by raising (a `RuntimeError` carrying a reason and the captured log text,
which the caller's retry controller catches); only the log-parse fault is a
different propagating exception. -/
theorem transform_single_file_signals_failure (fp op : String) (ch : Option Nat)
    (ec : Int) (ex : Bool) (log : List LogLine) (h : ¬(ec = 0 ∧ ex = true)) :
    transform_single_file fp op ch ec ex log ≠ .ok () ∧
    (parse_output_logs log ≠ none →
      ∃ msg, transform_single_file fp op ch ec ex log = .error (.runtimeError msg)) := by
  cases hp : parse_output_logs log with
  | none =>
      constructor
      · simp [transform_single_file, hp]
      · intro hne
        exact absurd rfl hne
  | some m =>
      rw [transform_single_file_of_parse_some fp op ch ec ex log m hp]
      by_cases hec : ec = 0
      · cases ex with
        | false => simp [hec]
        | true => exact absurd ⟨hec, rfl⟩ h
      · simp [hec]

/-- Claim C3 witness: exit code 1 with the output file present. -/
theorem transform_single_file_signals_failure_witness :
    ¬((1 : Int) = 0 ∧ true = true) ∧
    (transform_single_file "f" "o" none 1 true [] ≠ .ok () ∧
      (parse_output_logs [] ≠ none →
        ∃ msg, transform_single_file "f" "o" none 1 true [] =
          .error (.runtimeError msg))) :=
  ⟨by decide, transform_single_file_signals_failure "f" "o" none 1 true [] (by decide)⟩

/-- Claim C4: an attempt is successful iff the transformer exits with code
zero and a file exists at `output_path`; either failing condition raises the
`RuntimeError` whose message carries a human-readable reason plus the
captured log text, so a missing output with exit code zero is handled
identically to a non-zero exit for retry purposes (both raise, and the
caller's except-branch counts either as one failed attempt). -/
theorem transform_single_file_success_iff (fp op : String) (ch : Option Nat)
    (ec : Int) (ex : Bool) (log : List LogLine)
    (h : ∀ l ∈ log, l.wellFormed = true) :
    (transform_single_file fp op ch ec ex log = .ok () ↔ (ec = 0 ∧ ex = true)) ∧
    (ec ≠ 0 → transform_single_file fp op ch ec ex log =
      .error (.runtimeError ("Failed to transform input file " ++ fp ++ ": " ++
        ("Error return from transformer: " ++ toString ec) ++ " -- errors: " ++
        logFileText log))) ∧
    (ec = 0 → ex = false → transform_single_file fp op ch ec ex log =
      .error (.runtimeError ("Failed to transform input file " ++ fp ++ ": " ++
        ("Output file " ++ op ++ " was not found") ++ " -- errors: " ++
        logFileText log))) := by
  have hp : parse_output_logs log = some (specRunMetrics log) := by
    rw [parse_output_logs, parseLines_wellFormed log RunMetrics.zero h, mergeMetrics_zero]
  rw [transform_single_file_of_parse_some fp op ch ec ex log _ hp]
  by_cases hec : ec = 0 <;> cases ex <;> simp [hec]

/-! ## Helper lemmas about the retry controller -/

lemma loopFuel_success (req : TransformRequest) (os : Bool)
    (outcome : Nat → AttemptResult) (fr fuel : Nat) (e : String)
    (h : outcome fr = .success e) :
    loopFuel req os outcome fr (fuel + 1) = some (successTrace req os e) := by
  simp only [loopFuel, h]

lemma loopFuel_failure_last (req : TransformRequest) (os : Bool)
    (outcome : Nat → AttemptResult) (fr fuel : Nat) (e : String)
    (h : outcome fr = .failure e) (hlast : fr + 1 = MAX_RETRIES) :
    loopFuel req os outcome fr (fuel + 1) = some (deadLetterTrace req e) := by
  simp only [loopFuel, h, if_pos hlast]

lemma loopFuel_failure_step (req : TransformRequest) (os : Bool)
    (outcome : Nat → AttemptResult) (fr fuel : Nat) (e : String)
    (h : outcome fr = .failure e) (hne : ¬(fr + 1 = MAX_RETRIES)) :
    loopFuel req os outcome fr (fuel + 1) =
      (loopFuel req os outcome (fr + 1) fuel).map
        fun rest => retryTrace req (fr + 1) e ++ rest := by
  simp only [loopFuel, h, if_neg hne]

lemma callback_shape_s (req : TransformRequest) (os : Bool)
    (outcome : Nat → AttemptResult) (e0 : String) (h0 : outcome 0 = .success e0) :
    callback req os outcome =
      some (Event.postStatus req.file_id "start" "xAOD Transformer" ::
        successTrace req os e0 ++ [Event.basicAck]) := by
  have h3 : loopFuel req os outcome 0 3 = some (successTrace req os e0) :=
    loopFuel_success req os outcome 0 2 e0 h0
  simp only [callback, MAX_RETRIES]
  rw [h3]
  rfl

lemma callback_shape_fs (req : TransformRequest) (os : Bool)
    (outcome : Nat → AttemptResult) (e0 e1 : String)
    (h0 : outcome 0 = .failure e0) (h1 : outcome 1 = .success e1) :
    callback req os outcome =
      some (Event.postStatus req.file_id "start" "xAOD Transformer" ::
        (retryTrace req 1 e0 ++ successTrace req os e1) ++ [Event.basicAck]) := by
  have h2 : loopFuel req os outcome 1 2 = some (successTrace req os e1) :=
    loopFuel_success req os outcome 1 1 e1 h1
  have h3 : loopFuel req os outcome 0 3 =
      (loopFuel req os outcome 1 2).map
        (fun rest => retryTrace req 1 e0 ++ rest) :=
    loopFuel_failure_step req os outcome 0 2 e0 h0 (by decide)
  simp only [callback, MAX_RETRIES]
  rw [h3, h2]
  rfl

lemma callback_shape_ffs (req : TransformRequest) (os : Bool)
    (outcome : Nat → AttemptResult) (e0 e1 e2 : String)
    (h0 : outcome 0 = .failure e0) (h1 : outcome 1 = .failure e1)
    (h2 : outcome 2 = .success e2) :
    callback req os outcome =
      some (Event.postStatus req.file_id "start" "xAOD Transformer" ::
        (retryTrace req 1 e0 ++ (retryTrace req 2 e1 ++ successTrace req os e2)) ++
        [Event.basicAck]) := by
  have hc : loopFuel req os outcome 2 1 = some (successTrace req os e2) :=
    loopFuel_success req os outcome 2 0 e2 h2
  have hb : loopFuel req os outcome 1 2 =
      (loopFuel req os outcome 2 1).map
        (fun rest => retryTrace req 2 e1 ++ rest) :=
    loopFuel_failure_step req os outcome 1 1 e1 h1 (by decide)
  have ha : loopFuel req os outcome 0 3 =
      (loopFuel req os outcome 1 2).map
        (fun rest => retryTrace req 1 e0 ++ rest) :=
    loopFuel_failure_step req os outcome 0 2 e0 h0 (by decide)
  simp only [callback, MAX_RETRIES]
  rw [ha, hb, hc]
  rfl

lemma callback_shape_fff (req : TransformRequest) (os : Bool)
    (outcome : Nat → AttemptResult) (e0 e1 e2 : String)
    (h0 : outcome 0 = .failure e0) (h1 : outcome 1 = .failure e1)
    (h2 : outcome 2 = .failure e2) :
    callback req os outcome =
      some (Event.postStatus req.file_id "start" "xAOD Transformer" ::
        (retryTrace req 1 e0 ++ (retryTrace req 2 e1 ++ deadLetterTrace req e2)) ++
        [Event.basicAck]) := by
  have hc : loopFuel req os outcome 2 1 = some (deadLetterTrace req e2) :=
    loopFuel_failure_last req os outcome 2 0 e2 h2 (by decide)
  have hb : loopFuel req os outcome 1 2 =
      (loopFuel req os outcome 2 1).map
        (fun rest => retryTrace req 2 e1 ++ rest) :=
    loopFuel_failure_step req os outcome 1 1 e1 h1 (by decide)
  have ha : loopFuel req os outcome 0 3 =
      (loopFuel req os outcome 1 2).map
        (fun rest => retryTrace req 1 e0 ++ rest) :=
    loopFuel_failure_step req os outcome 0 2 e0 h0 (by decide)
  simp only [callback, MAX_RETRIES]
  rw [ha, hb, hc]
  rfl

@[simp] lemma countInvoke_nil : countInvoke [] = 0 := rfl

@[simp] lemma countInvoke_cons (e : Event) (l : List Event) :
    countInvoke (e :: l) = countInvoke l + (if Event.isInvoke e then 1 else 0) :=
  List.countP_cons _ _ _

@[simp] lemma countInvoke_append (l1 l2 : List Event) :
    countInvoke (l1 ++ l2) = countInvoke l1 + countInvoke l2 :=
  List.countP_append _ _ _

@[simp] lemma countAck_nil : countAck [] = 0 := rfl

@[simp] lemma countAck_cons (e : Event) (l : List Event) :
    countAck (e :: l) = countAck l + (if Event.isAck e then 1 else 0) :=
  List.countP_cons _ _ _

@[simp] lemma countAck_append (l1 l2 : List Event) :
    countAck (l1 ++ l2) = countAck l1 + countAck l2 :=
  List.countP_append _ _ _

@[simp] lemma countPublish_nil : countPublish [] = 0 := rfl

@[simp] lemma countPublish_cons (e : Event) (l : List Event) :
    countPublish (e :: l) = countPublish l + (if Event.isPublish e then 1 else 0) :=
  List.countP_cons _ _ _

@[simp] lemma countPublish_append (l1 l2 : List Event) :
    countPublish (l1 ++ l2) = countPublish l1 + countPublish l2 :=
  List.countP_append _ _ _

@[simp] lemma statusCodes_nil : statusCodes [] = [] := rfl

@[simp] lemma statusCodes_append (l1 l2 : List Event) :
    statusCodes (l1 ++ l2) = statusCodes l1 ++ statusCodes l2 :=
  List.filterMap_append _ _ _

@[simp] lemma countInvoke_successTrace (req : TransformRequest) (os : Bool) (e : String) :
    countInvoke (successTrace req os e) = 1 := by
  cases os <;> simp [successTrace, countInvoke, Event.isInvoke, List.countP_cons]

@[simp] lemma countInvoke_deadLetterTrace (req : TransformRequest) (e : String) :
    countInvoke (deadLetterTrace req e) = 1 := by
  simp [deadLetterTrace, countInvoke, Event.isInvoke, List.countP_cons]

@[simp] lemma countInvoke_retryTrace (req : TransformRequest) (n : Nat) (e : String) :
    countInvoke (retryTrace req n e) = 1 := by
  simp [retryTrace, countInvoke, Event.isInvoke, List.countP_cons]

@[simp] lemma countAck_successTrace (req : TransformRequest) (os : Bool) (e : String) :
    countAck (successTrace req os e) = 0 := by
  cases os <;> simp [successTrace, countAck, Event.isAck, List.countP_cons]

@[simp] lemma countAck_deadLetterTrace (req : TransformRequest) (e : String) :
    countAck (deadLetterTrace req e) = 0 := by
  simp [deadLetterTrace, countAck, Event.isAck, List.countP_cons]

@[simp] lemma countAck_retryTrace (req : TransformRequest) (n : Nat) (e : String) :
    countAck (retryTrace req n e) = 0 := by
  simp [retryTrace, countAck, Event.isAck, List.countP_cons]

@[simp] lemma countPublish_successTrace (req : TransformRequest) (os : Bool) (e : String) :
    countPublish (successTrace req os e) = 0 := by
  cases os <;> simp [successTrace, countPublish, Event.isPublish, List.countP_cons]

@[simp] lemma countPublish_deadLetterTrace (req : TransformRequest) (e : String) :
    countPublish (deadLetterTrace req e) = 1 := by
  simp [deadLetterTrace, countPublish, Event.isPublish, List.countP_cons]

@[simp] lemma countPublish_retryTrace (req : TransformRequest) (n : Nat) (e : String) :
    countPublish (retryTrace req n e) = 0 := by
  simp [retryTrace, countPublish, Event.isPublish, List.countP_cons]

@[simp] lemma statusCodes_successTrace (req : TransformRequest) (os : Bool) (e : String) :
    statusCodes (successTrace req os e) = ["complete"] := by
  cases os <;> simp [successTrace, statusCodes, statusCode?, List.filterMap_cons]

@[simp] lemma statusCodes_deadLetterTrace (req : TransformRequest) (e : String) :
    statusCodes (deadLetterTrace req e) = ["failure"] := by
  simp [deadLetterTrace, statusCodes, statusCode?, List.filterMap_cons]

@[simp] lemma statusCodes_retryTrace (req : TransformRequest) (n : Nat) (e : String) :
    statusCodes (retryTrace req n e) = ["retry"] := by
  simp [retryTrace, statusCodes, statusCode?, List.filterMap_cons]

@[simp] lemma statusCodes_cons_post (fid c i : String) (l : List Event) :
    statusCodes (Event.postStatus fid c i :: l) = c :: statusCodes l := by
  simp [statusCodes, statusCode?, List.filterMap_cons]

@[simp] lemma statusCodes_cons_ack (l : List Event) :
    statusCodes (Event.basicAck :: l) = statusCodes l := by
  simp [statusCodes, statusCode?, List.filterMap_cons]

/-- Claim C4 witness: exit code 0 with the output file present succeeds. -/
theorem transform_single_file_success_iff_witness :
    (∀ l ∈ ([] : List LogLine), l.wellFormed = true) ∧
    ((transform_single_file "f" "o" none 0 true [] = .ok () ↔
        ((0 : Int) = 0 ∧ true = true)) ∧
      ((0 : Int) ≠ 0 → transform_single_file "f" "o" none 0 true [] =
        .error (.runtimeError ("Failed to transform input file " ++ "f" ++ ": " ++
          ("Error return from transformer: " ++ toString (0 : Int)) ++ " -- errors: " ++
          logFileText []))) ∧
      ((0 : Int) = 0 → true = false → transform_single_file "f" "o" none 0 true [] =
        .error (.runtimeError ("Failed to transform input file " ++ "f" ++ ": " ++
          ("Output file " ++ "o" ++ " was not found") ++ " -- errors: " ++
          logFileText [])))) :=
  ⟨by decide, transform_single_file_success_iff "f" "o" none 0 true [] (by decide)⟩

/-! ## Claim theorems about the retry controller -/

/-- Claim C10: for every sequence of attempt outcomes, the `while` loop in
`callback` terminates — `file_retries` increases by exactly one on each
failed attempt, so the loop exits within `MAX_RETRIES` iterations (here:
the fuelled loop, given exactly `MAX_RETRIES` iterations of fuel, always
exits, having invoked `transform_single_file` between once and
`MAX_RETRIES` times). -/
theorem callback_terminates (req : TransformRequest) (os : Bool)
    (outcome : Nat → AttemptResult) :
    ∃ evs, callback req os outcome = some evs ∧
      1 ≤ countInvoke evs ∧ countInvoke evs ≤ MAX_RETRIES := by
  cases h0 : outcome 0 with
  | success e0 =>
      exact ⟨_, callback_shape_s req os outcome e0 h0, by simp [Event.isInvoke],
        by simp [Event.isInvoke, MAX_RETRIES]⟩
  | failure e0 =>
      cases h1 : outcome 1 with
      | success e1 =>
          exact ⟨_, callback_shape_fs req os outcome e0 e1 h0 h1,
            by simp [Event.isInvoke], by simp [Event.isInvoke, MAX_RETRIES]⟩
      | failure e1 =>
          cases h2 : outcome 2 with
          | success e2 =>
              exact ⟨_, callback_shape_ffs req os outcome e0 e1 e2 h0 h1 h2,
                by simp [Event.isInvoke], by simp [Event.isInvoke, MAX_RETRIES]⟩
          | failure e2 =>
              exact ⟨_, callback_shape_fff req os outcome e0 e1 e2 h0 h1 h2,
                by simp [Event.isInvoke], by simp [Event.isInvoke, MAX_RETRIES]⟩

/-- Claim C1: for every task and every sequence of attempt outcomes, the
retry loop performs at most `MAX_RETRIES` invocations of
`transform_single_file`; when every attempt fails, exactly `MAX_RETRIES`
invocations occur before dead-lettering, and no fourth invocation ever
happens. -/
theorem callback_invocation_bound (req : TransformRequest) (os : Bool)
    (outcome : Nat → AttemptResult) (evs : List Event)
    (h : callback req os outcome = some evs) :
    countInvoke evs ≤ MAX_RETRIES ∧
    ((∀ i, i < MAX_RETRIES → (outcome i).isFailure = true) →
      countInvoke evs = MAX_RETRIES) := by
  cases h0 : outcome 0 with
  | success e0 =>
      rw [callback_shape_s req os outcome e0 h0] at h
      obtain rfl := Option.some_inj.mp h
      refine ⟨by simp [Event.isInvoke, MAX_RETRIES], fun hall => ?_⟩
      have := hall 0 (by decide)
      rw [h0] at this
      simp [AttemptResult.isFailure] at this
  | failure e0 =>
      cases h1 : outcome 1 with
      | success e1 =>
          rw [callback_shape_fs req os outcome e0 e1 h0 h1] at h
          obtain rfl := Option.some_inj.mp h
          refine ⟨by simp [Event.isInvoke, MAX_RETRIES], fun hall => ?_⟩
          have := hall 1 (by decide)
          rw [h1] at this
          simp [AttemptResult.isFailure] at this
      | failure e1 =>
          cases h2 : outcome 2 with
          | success e2 =>
              rw [callback_shape_ffs req os outcome e0 e1 e2 h0 h1 h2] at h
              obtain rfl := Option.some_inj.mp h
              refine ⟨by simp [Event.isInvoke, MAX_RETRIES], fun hall => ?_⟩
              have := hall 2 (by decide)
              rw [h2] at this
              simp [AttemptResult.isFailure] at this
          | failure e2 =>
              rw [callback_shape_fff req os outcome e0 e1 e2 h0 h1 h2] at h
              obtain rfl := Option.some_inj.mp h
              exact ⟨by simp [Event.isInvoke, MAX_RETRIES],
                fun _ => by simp [Event.isInvoke, MAX_RETRIES]⟩

/-- Claim C1 witness: with every attempt failing, exactly three invocations
occur. -/
theorem callback_invocation_bound_witness :
    callback sampleRequest false (fun _ => AttemptResult.failure "boom") =
      some sampleFailTrace ∧
    (countInvoke sampleFailTrace ≤ MAX_RETRIES ∧
      ((∀ i, i < MAX_RETRIES →
          ((fun _ => AttemptResult.failure "boom") i).isFailure = true) →
        countInvoke sampleFailTrace = MAX_RETRIES)) :=
  ⟨by decide,
    callback_invocation_bound sampleRequest false (fun _ => AttemptResult.failure "boom")
      sampleFailTrace (by decide)⟩

/-- Claim C2: for every task and every sequence of attempt outcomes,
`basic_ack` appears exactly once in the trace, as its very last action —
i.e. only after the retry loop has exited in a terminal state. -/
theorem callback_acks_once_after_terminal (req : TransformRequest) (os : Bool)
    (outcome : Nat → AttemptResult) :
    ∃ pre, callback req os outcome = some (pre ++ [Event.basicAck]) ∧
      countAck pre = 0 := by
  cases h0 : outcome 0 with
  | success e0 =>
      exact ⟨_, callback_shape_s req os outcome e0 h0, by simp [Event.isAck]⟩
  | failure e0 =>
      cases h1 : outcome 1 with
      | success e1 =>
          exact ⟨_, callback_shape_fs req os outcome e0 e1 h0 h1, by simp [Event.isAck]⟩
      | failure e1 =>
          cases h2 : outcome 2 with
          | success e2 =>
              exact ⟨_, callback_shape_ffs req os outcome e0 e1 e2 h0 h1 h2,
                by simp [Event.isAck]⟩
          | failure e2 =>
              exact ⟨_, callback_shape_fff req os outcome e0 e1 e2 h0 h1 h2,
                by simp [Event.isAck]⟩

/-- Claim C5: for every task and every sequence of attempt outcomes, the
status events emitted form the sequence `start`, then zero or more `retry`
events (at most `MAX_RETRIES - 1`), then exactly one of `complete` or
`failure`; the `start` event is the very first action of the trace. -/
theorem callback_status_event_order (req : TransformRequest) (os : Bool)
    (outcome : Nat → AttemptResult) :
    ∃ evs k t, callback req os outcome = some evs ∧
      statusCodes evs = "start" :: List.replicate k "retry" ++ [t] ∧
      (t = "complete" ∨ t = "failure") ∧
      k ≤ MAX_RETRIES - 1 ∧
      evs.head? = some (Event.postStatus req.file_id "start" "xAOD Transformer") := by
  cases h0 : outcome 0 with
  | success e0 =>
      exact ⟨_, 0, "complete", callback_shape_s req os outcome e0 h0, by simp,
        Or.inl rfl, by decide, rfl⟩
  | failure e0 =>
      cases h1 : outcome 1 with
      | success e1 =>
          exact ⟨_, 1, "complete", callback_shape_fs req os outcome e0 e1 h0 h1,
            by simp [List.replicate], Or.inl rfl, by decide, rfl⟩
      | failure e1 =>
          cases h2 : outcome 2 with
          | success e2 =>
              exact ⟨_, 2, "complete", callback_shape_ffs req os outcome e0 e1 e2 h0 h1 h2,
                by simp [List.replicate], Or.inl rfl, by decide, rfl⟩
          | failure e2 =>
              exact ⟨_, 2, "failure", callback_shape_fff req os outcome e0 e1 e2 h0 h1 h2,
                by simp [List.replicate], Or.inr rfl, by decide, rfl⟩

/-- Claim C6: for every task whose attempts all fail, the controller
publishes exactly one dead-letter message, on the `transformation_failures`
exchange with routing key `request_id ++ "_errors"` and body the original
task record augmented with the error text of the last attempt; it then
reports the failure completion record downstream, posts the `failure`
status event, acknowledges, and stops retrying (exactly `MAX_RETRIES`
invocations, nothing after the acknowledgement). -/
theorem callback_dead_letter_on_exhaustion (req : TransformRequest) (os : Bool)
    (outcome : Nat → AttemptResult)
    (hall : ∀ i, i < MAX_RETRIES → (outcome i).isFailure = true) :
    ∃ e2 evs pre, outcome (MAX_RETRIES - 1) = .failure e2 ∧
      callback req os outcome = some evs ∧
      countPublish evs = 1 ∧
      countInvoke evs = MAX_RETRIES ∧
      evs = pre ++
        [Event.basicPublish "transformation_failures" (req.request_id ++ "_errors")
          ⟨req, e2⟩,
         Event.putFileComplete req.file_path req.file_id "failure" 0 "0" 0 0,
         Event.postStatus req.file_id "failure" ("error: " ++ e2),
         Event.basicAck] := by
  have hf0 := hall 0 (by decide)
  have hf1 := hall 1 (by decide)
  have hf2 := hall 2 (by decide)
  cases h0 : outcome 0 with
  | success e0 => rw [h0] at hf0; simp [AttemptResult.isFailure] at hf0
  | failure e0 =>
  cases h1 : outcome 1 with
  | success e1 => rw [h1] at hf1; simp [AttemptResult.isFailure] at hf1
  | failure e1 =>
  cases h2 : outcome 2 with
  | success e2 => rw [h2] at hf2; simp [AttemptResult.isFailure] at hf2
  | failure e2 =>
      refine ⟨e2,
        Event.postStatus req.file_id "start" "xAOD Transformer" ::
          (retryTrace req 1 e0 ++ (retryTrace req 2 e1 ++ deadLetterTrace req e2)) ++
          [Event.basicAck],
        Event.postStatus req.file_id "start" "xAOD Transformer" ::
          (retryTrace req 1 e0 ++ (retryTrace req 2 e1 ++
            [Event.invokeTransform req.file_path (outputPathOf req) req.chunk_size])),
        h2, callback_shape_fff req os outcome e0 e1 e2 h0 h1 h2,
        by simp [Event.isPublish],
        by simp [Event.isInvoke, MAX_RETRIES], ?_⟩
      simp [retryTrace, deadLetterTrace]

/-- Claim C6 witness: the concrete all-failures run on the sample task. -/
theorem callback_dead_letter_on_exhaustion_witness :
    (∀ i, i < MAX_RETRIES →
      ((fun _ => AttemptResult.failure "boom") i).isFailure = true) ∧
    (∃ e2 evs pre,
      (fun _ => AttemptResult.failure "boom") (MAX_RETRIES - 1) =
        AttemptResult.failure e2 ∧
      callback sampleRequest false (fun _ => AttemptResult.failure "boom") = some evs ∧
      countPublish evs = 1 ∧
      countInvoke evs = MAX_RETRIES ∧
      evs = pre ++
        [Event.basicPublish "transformation_failures"
          (sampleRequest.request_id ++ "_errors") ⟨sampleRequest, e2⟩,
         Event.putFileComplete sampleRequest.file_path sampleRequest.file_id
           "failure" 0 "0" 0 0,
         Event.postStatus sampleRequest.file_id "failure" ("error: " ++ e2),
         Event.basicAck]) :=
  ⟨fun _ _ => rfl,
    callback_dead_letter_on_exhaustion sampleRequest false
      (fun _ => AttemptResult.failure "boom") (fun _ _ => rfl)⟩

end XaodTransformer
